import Mathlib

/-!
Shallow embedding of `scripts/fetch_aurora_data.py` (Oulu-Aurora).

Python floats are modelled as rationals (`ℚ`); Python's `round` builtin is
modelled as round-half-to-even (`roundHalfEven`, `round1`); optional values
(`None`) as `Option`; a caught exception inside a parser's `try` block is
modelled by an `Option` layer whose `none` means "an exception was raised".
-/

/-- Executable floor on `ℚ` (kernel-reducible, unlike the `FloorRing` field). -/
def ratFloor (x : ℚ) : ℤ := x.num / (x.den : ℤ)

lemma ratFloor_eq (x : ℚ) : ratFloor x = ⌊x⌋ := Rat.floor_def.symm

/-- Python's `round(x)` to an integer: nearest integer, ties to even. -/
def roundHalfEven (x : ℚ) : ℤ :=
  if x - ratFloor x < 1/2 then ratFloor x
  else if 1/2 < x - ratFloor x then ratFloor x + 1
  else if ratFloor x % 2 = 0 then ratFloor x else ratFloor x + 1

/-- Python's `round(x, 1)`: round to one decimal place. -/
def round1 (x : ℚ) : ℚ := (roundHalfEven (x * 10) : ℚ) / 10

lemma roundHalfEven_le (x : ℚ) : (roundHalfEven x : ℚ) ≤ x + 1/2 := by
  have h1 : ((⌊x⌋ : ℤ) : ℚ) ≤ x := Int.floor_le x
  have h2 : x < ((⌊x⌋ : ℤ) : ℚ) + 1 := Int.lt_floor_add_one x
  unfold roundHalfEven
  rw [ratFloor_eq]
  split_ifs <;> push_cast <;> linarith

lemma le_roundHalfEven (x : ℚ) : x - 1/2 ≤ (roundHalfEven x : ℚ) := by
  have h1 : ((⌊x⌋ : ℤ) : ℚ) ≤ x := Int.floor_le x
  have h2 : x < ((⌊x⌋ : ℤ) : ℚ) + 1 := Int.lt_floor_add_one x
  unfold roundHalfEven
  rw [ratFloor_eq]
  split_ifs <;> push_cast <;> linarith

lemma roundHalfEven_eq_of_lt (n : ℤ) (x : ℚ) (h1 : (n : ℚ) ≤ x)
    (h2 : x < (n : ℚ) + 1/2) : roundHalfEven x = n := by
  have hf : ⌊x⌋ = n := Int.floor_eq_iff.mpr ⟨h1, by linarith⟩
  unfold roundHalfEven
  rw [ratFloor_eq, hf, if_pos (by linarith)]

lemma roundHalfEven_eq_of_gt (n : ℤ) (x : ℚ) (h1 : (n : ℚ) - 1/2 < x)
    (h2 : x ≤ (n : ℚ)) : roundHalfEven x = n := by
  rcases eq_or_lt_of_le h2 with heq | hlt
  · exact roundHalfEven_eq_of_lt n x (le_of_eq heq.symm) (by rw [heq]; linarith)
  · have hf : ⌊x⌋ = n - 1 :=
      Int.floor_eq_iff.mpr ⟨by push_cast; linarith, by push_cast; linarith⟩
    unfold roundHalfEven
    rw [ratFloor_eq, hf, if_neg (by push_cast; linarith),
      if_pos (by push_cast; linarith)]
    omega

lemma round1_eq_of_lt (n : ℤ) (x : ℚ) (h1 : (n : ℚ) ≤ x * 10)
    (h2 : x * 10 < (n : ℚ) + 1/2) : round1 x = (n : ℚ) / 10 := by
  unfold round1
  rw [roundHalfEven_eq_of_lt n _ h1 h2]

lemma round1_eq_of_gt (n : ℤ) (x : ℚ) (h1 : (n : ℚ) - 1/2 < x * 10)
    (h2 : x * 10 ≤ (n : ℚ)) : round1 x = (n : ℚ) / 10 := by
  unfold round1
  rw [roundHalfEven_eq_of_gt n _ h1 h2]

lemma roundHalfEven_mono {x y : ℚ} (h : x ≤ y) :
    roundHalfEven x ≤ roundHalfEven y := by
  by_contra hlt
  push_neg at hlt
  have h1 : roundHalfEven y + 1 ≤ roundHalfEven x := hlt
  have h2 : (roundHalfEven x : ℚ) ≤ x + 1/2 := roundHalfEven_le x
  have h3 : y - 1/2 ≤ (roundHalfEven y : ℚ) := le_roundHalfEven y
  have h4 : ((roundHalfEven y : ℤ) : ℚ) + 1 ≤ ((roundHalfEven x : ℤ) : ℚ) := by

    exact_mod_cast h1
  have hxy : x = y := le_antisymm h (by linarith)
  subst hxy
  omega

lemma round1_mono {x y : ℚ} (h : x ≤ y) : round1 x ≤ round1 y := by
  unfold round1
  have h10 : x * 10 ≤ y * 10 := by linarith
  have := roundHalfEven_mono h10
  have hc : ((roundHalfEven (x * 10) : ℤ) : ℚ) ≤ ((roundHalfEven (y * 10) : ℤ) : ℚ) := by
    exact_mod_cast this
  linarith

/-- `calculate_aurora_indicator` from the source: 0.0 when the probability is
absent, otherwise the probability scaled by a cloud-visibility multiplier,
clamped and rounded to one decimal. -/
def calculate_aurora_indicator (aurora_probability : Option ℚ)
    (clouds : Option ℚ) : ℚ :=
  match aurora_probability with
  | none => 0
  | some p =>
    let visibility : ℚ :=
      match clouds with
      | none => 1
      | some c => if c ≤ 50 then 1 else (100 - c) / 50
    let indicator := p * visibility
    round1 (max 0 (min 100 indicator))

/-- `calculate_traffic_light` from the source. -/
def calculate_traffic_light (aurora_indicator : ℚ) : String :=
  if aurora_indicator ≥ 50 then "red"
  else if aurora_indicator ≥ 25 then "yellow"
  else if aurora_indicator ≥ 10 then "green"
  else "black"

/-- The IndicatorEngine score exactly as the spec words it (section 4.3):
a multiplier of 1.0 when coverage is absent or at most 50, else
`(100 - coverage) / 50`; `raw = aurora_point_probability * multiplier`;
the final score is `raw` clamped to `[0,100]` and rounded to one decimal;
exactly 0.0 when the probability is absent. -/
def aurora_indicator_spec (aurora_point_probability cloud_coverage : Option ℚ) : ℚ :=
  match aurora_point_probability with
  | none => 0
  | some p =>
    let multiplier : ℚ :=
      match cloud_coverage with
      | none => 1
      | some c => if c ≤ 50 then 1 else (100 - c) / 50
    let raw := p * multiplier
    round1 (min 100 (max 0 raw))

lemma clamp_comm (x : ℚ) : max 0 (min 100 x) = min 100 (max 0 x) := by
  simp only [min_def, max_def]
  split_ifs <;> linarith

lemma clamp_mono {a b : ℚ} (h : a ≤ b) :
    max 0 (min 100 a) ≤ max 0 (min 100 b) :=
  max_le_max le_rfl (min_le_min le_rfl h)

lemma scaled_clamp_mono_left (v : ℚ) {p1 p2 : ℚ} (h0 : 0 ≤ p1) (h12 : p1 ≤ p2) :
    max 0 (min 100 (p1 * v)) ≤ max 0 (min 100 (p2 * v)) := by
  rcases le_or_lt 0 v with hv | hv
  · exact clamp_mono (mul_le_mul_of_nonneg_right h12 hv)
  · have hp1 : p1 * v ≤ 0 := by nlinarith
    have hp2 : p2 * v ≤ 0 := by nlinarith
    rw [min_eq_right (by linarith : p1 * v ≤ (100:ℚ)),
      min_eq_right (by linarith : p2 * v ≤ (100:ℚ)),
      max_eq_left hp1, max_eq_left hp2]

example : roundHalfEven (65.01 : ℚ) = 65 :=
  roundHalfEven_eq_of_lt 65 _ (by norm_num) (by norm_num)
example : roundHalfEven (25.47 : ℚ) = 25 :=
  roundHalfEven_eq_of_lt 25 _ (by norm_num) (by norm_num)
example : roundHalfEven (2.6 : ℚ) = 3 :=
  roundHalfEven_eq_of_gt 3 _ (by norm_num) (by norm_num)
example : round1 (12.34 : ℚ) = 12.3 := by
  rw [round1_eq_of_lt 123 _ (by norm_num) (by norm_num)]; norm_num
example : calculate_aurora_indicator (some 40) (some 75) = 20 := by
  show round1 (max 0 (min 100 (40 * (if (75:ℚ) ≤ 50 then 1 else (100 - 75)/50)))) = 20
  rw [if_neg (by norm_num)]
  norm_num [max_def, min_def]
  rw [round1_eq_of_lt 200 _ (by norm_num) (by norm_num)]; norm_num
example : calculate_aurora_indicator none (some 10) = 0 := rfl
example : calculate_traffic_light 25 = "yellow" := by
  unfold calculate_traffic_light
  rw [if_neg (by norm_num), if_pos (by norm_num)]

/-- C1: for every input, `calculate_aurora_indicator` returns exactly 0.0 when
the point probability is absent, and otherwise multiplies the probability by
the cloud-coverage visibility multiplier (1.0 when coverage is absent or at
most 50, else `(100 - coverage) / 50`), clamps the product to `[0,100]` and
rounds it to one decimal place — i.e. it agrees with the spec-worded
`aurora_indicator_spec` on every input. -/
theorem calculate_aurora_indicator_matches_spec :
    ∀ (p c : Option ℚ),
      calculate_aurora_indicator p c = aurora_indicator_spec p c := by
  intro p c
  cases p with
  | none => rfl
  | some p =>
    show round1 (max 0 (min 100 _)) = round1 (min 100 (max 0 _))
    rw [clamp_comm]

/-- C2: `calculate_traffic_light` is total on `ℚ` and partitions scores into
exactly four contiguous non-overlapping bands with inclusive lower bounds:
at least 50 is "red", 25 to below 50 is "yellow", 10 to below 25 is "green",
everything below 10 is "black"; the boundary scores 10, 25 and 50 fall into
the higher band. -/
theorem calculate_traffic_light_partition :
    (∀ s : ℚ,
      (calculate_traffic_light s = "red" ↔ 50 ≤ s) ∧
      (calculate_traffic_light s = "yellow" ↔ 25 ≤ s ∧ s < 50) ∧
      (calculate_traffic_light s = "green" ↔ 10 ≤ s ∧ s < 25) ∧
      (calculate_traffic_light s = "black" ↔ s < 10)) ∧
    calculate_traffic_light 50 = "red" ∧
    calculate_traffic_light 25 = "yellow" ∧
    calculate_traffic_light 10 = "green" := by
  refine ⟨fun s => ?_, ?_, ?_, ?_⟩
  · unfold calculate_traffic_light
    split_ifs with h1 h2 h3
    all_goals
      refine ⟨Iff.intro ?_ ?_, Iff.intro ?_ ?_, Iff.intro ?_ ?_,
        Iff.intro ?_ ?_⟩ <;> intro h
    all_goals first
      | rfl
      | linarith
      | exact absurd h (by decide)
      | exact ⟨by linarith, by linarith⟩
  · unfold calculate_traffic_light
    rw [if_pos (by norm_num)]
  · unfold calculate_traffic_light
    rw [if_neg (by norm_num), if_pos (by norm_num)]
  · unfold calculate_traffic_light
    rw [if_neg (by norm_num), if_neg (by norm_num), if_pos (by norm_num)]

lemma visibility_antitone {c1 c2 : ℚ} (h : c1 ≤ c2) :
    (if c2 ≤ 50 then (1:ℚ) else (100 - c2) / 50) ≤
      (if c1 ≤ 50 then (1:ℚ) else (100 - c1) / 50) := by
  split_ifs <;> linarith

/-- C7: for present probabilities in `[0,100]`, the indicator is monotonically
non-decreasing in the point probability at fixed cloud coverage, and
monotonically non-increasing in cloud coverage at fixed probability. -/
theorem calculate_aurora_indicator_monotone :
    (∀ (p1 p2 : ℚ) (c : Option ℚ), 0 ≤ p1 → p1 ≤ p2 → p2 ≤ 100 →
      calculate_aurora_indicator (some p1) c ≤
        calculate_aurora_indicator (some p2) c) ∧
    (∀ (p c1 c2 : ℚ), 0 ≤ p → p ≤ 100 → c1 ≤ c2 →
      calculate_aurora_indicator (some p) (some c2) ≤
        calculate_aurora_indicator (some p) (some c1)) := by
  constructor
  · intro p1 p2 c h0 h12 _
    show round1 _ ≤ round1 _
    exact round1_mono (scaled_clamp_mono_left _ h0 h12)
  · intro p c1 c2 hp0 _ hc
    show round1 (max 0 (min 100 _)) ≤ round1 (max 0 (min 100 _))
    refine round1_mono (clamp_mono ?_)
    exact mul_le_mul_of_nonneg_left (visibility_antitone hc) hp0

/-- Witness for C7 at concrete inputs. -/
theorem calculate_aurora_indicator_monotone_witness :
    (0 ≤ (10:ℚ) ∧ (10:ℚ) ≤ 20 ∧ (20:ℚ) ≤ 100 ∧
      calculate_aurora_indicator (some 10) (some 60) ≤
        calculate_aurora_indicator (some 20) (some 60)) ∧
    (0 ≤ (20:ℚ) ∧ (20:ℚ) ≤ 100 ∧ (60:ℚ) ≤ 80 ∧
      calculate_aurora_indicator (some 20) (some 80) ≤
        calculate_aurora_indicator (some 20) (some 60)) :=
  ⟨⟨by norm_num, by norm_num, by norm_num,
    calculate_aurora_indicator_monotone.1 10 20 (some 60)
      (by norm_num) (by norm_num) (by norm_num)⟩,
   ⟨by norm_num, by norm_num, by norm_num,
    calculate_aurora_indicator_monotone.2 20 60 80
      (by norm_num) (by norm_num) (by norm_num)⟩⟩

/-- Badge record produced by `generate_badge` in the source. -/
structure Badge where
  schemaVersion : ℕ
  label : String
  message : String
  color : String
deriving DecidableEq

/-- `generate_badge` from the source. -/
def generate_badge (label message color : String) : Badge :=
  { schemaVersion := 1, label := label, message := message, color := color }

/-- The `messages` dict lookup with default "Unknown" inside
`get_recommendation_badge`. -/
def recommendationMessage (traffic_light : String) : String :=
  if traffic_light = "red" then "Pretty sure"
  else if traffic_light = "yellow" then "Worth checking"
  else if traffic_light = "green" then "Probably not"
  else if traffic_light = "black" then "Definitely not"
  else "Unknown"

/-- `get_recommendation_badge` from the source. -/
def get_recommendation_badge (traffic_light : String) : Badge :=
  generate_badge "Current Status" (recommendationMessage traffic_light)
    (if traffic_light ≠ "black" then traffic_light else "gray")

/-- C8: for the bottom band the persisted snapshot string is "black" while the
recommendation badge emitted from the same traffic light carries color "gray"
and message "Definitely not"; for the other three bands the badge color is the
identical string as the snapshot value. -/
theorem snapshot_black_badge_gray :
    ∀ s : ℚ,
      (calculate_traffic_light s = "black" →
        (get_recommendation_badge (calculate_traffic_light s)).color = "gray" ∧
        (get_recommendation_badge (calculate_traffic_light s)).message =
          "Definitely not") ∧
      (calculate_traffic_light s ≠ "black" →
        (get_recommendation_badge (calculate_traffic_light s)).color =
          calculate_traffic_light s) := by
  intro s
  constructor
  · intro h
    rw [h]
    exact ⟨rfl, rfl⟩
  · intro h
    unfold calculate_traffic_light at h ⊢
    split_ifs at h ⊢ with h1 h2 h3
    · rfl
    · rfl
    · rfl
    · exact absurd rfl h

/-- Witness for C8: score 5 is in the bottom band (snapshot "black", badge
"gray"); score 60 is in the top band (badge color equals the snapshot
string). -/
theorem snapshot_black_badge_gray_witness :
    ((get_recommendation_badge (calculate_traffic_light 5)).color = "gray" ∧
      (get_recommendation_badge (calculate_traffic_light 5)).message =
        "Definitely not") ∧
    (get_recommendation_badge (calculate_traffic_light 60)).color =
      calculate_traffic_light 60 := by
  have h5 : calculate_traffic_light 5 = "black" := by
    unfold calculate_traffic_light
    rw [if_neg (by norm_num), if_neg (by norm_num), if_neg (by norm_num)]
  have h60 : calculate_traffic_light 60 = "red" := by
    unfold calculate_traffic_light
    rw [if_pos (by norm_num)]
  exact ⟨(snapshot_black_badge_gray 5).1 h5,
    (snapshot_black_badge_gray 60).2 (by rw [h60]; decide)⟩

/-- Truthiness of an environment variable lookup (`os.environ.get`): absent
(`None`) and the empty string are falsy, any other string is truthy. -/
def envTruthy : Option String → Bool
  | none => false
  | some s => s != ""

/-- Environment and clock visible to `send_pushover_notification`: the
`GITHUB_ACTIONS`, `PUSHOVER_TOKEN` and `PUSHOVER_USER` variables, and the
current local (UTC+2) time as an abstract instant. -/
structure NotifyEnv where
  github_actions : Option String
  pushover_token : Option String
  pushover_user : Option String
  now : ℤ

/-- Outcome of the notification gate: one send attempt, or one of the five
distinct logged skip reasons of the source. -/
inductive NotifyDecision where
  | send
  | skipNotGitHubActions
  | skipNoCredentials
  | skipBeforeWindow
  | skipAfterWindow
  | skipBelowYellow
deriving DecidableEq

/-- The check `notify_start and now < notify_start` from the source. -/
def beforeWindow (now : ℤ) (notify_start : Option ℤ) : Bool :=
  match notify_start with
  | some s => decide (now < s)
  | none => false

/-- The check `notify_end and now > notify_end` from the source. -/
def afterWindow (now : ℤ) (notify_end : Option ℤ) : Bool :=
  match notify_end with
  | some e => decide (e < now)
  | none => false

/-- The guard sequence of `send_pushover_notification` from the source.
The source only evaluates the two window checks under
`if notify_start or notify_end:`, but both checks are vacuously false when
both bounds are `None`, so the flattened sequence is the same function. -/
def send_pushover_notification (env : NotifyEnv) (traffic_light : String)
    (notify_start notify_end : Option ℤ) : NotifyDecision :=
  if !envTruthy env.github_actions then .skipNotGitHubActions
  else if !envTruthy env.pushover_token || !envTruthy env.pushover_user then
    .skipNoCredentials
  else if beforeWindow env.now notify_start then .skipBeforeWindow
  else if afterWindow env.now notify_end then .skipAfterWindow
  else if traffic_light == "yellow" || traffic_light == "red" then .send
  else .skipBelowYellow

lemma beforeWindow_false_iff {now : ℤ} {ns : Option ℤ} :
    beforeWindow now ns = false ↔ ∀ s ∈ ns, s ≤ now := by
  cases ns <;> simp [beforeWindow, Int.not_lt]

lemma afterWindow_false_iff {now : ℤ} {ne : Option ℤ} :
    afterWindow now ne = false ↔ ∀ e ∈ ne, now ≤ e := by
  cases ne <;> simp [afterWindow, Int.not_lt]

/-- C4: the gate attempts exactly one send iff all four guards pass, and the
guards are evaluated in order, each failure short-circuiting with its own
distinct skip reason: (1) the `GITHUB_ACTIONS` flag, (2) both Pushover
credentials, (3) the inclusive `[start, end]` local-time window with absent
bounds unbounded, (4) traffic light "yellow" or "red"; class "green"
(possible) never sends. -/
theorem send_pushover_notification_gate :
    ∀ (env : NotifyEnv) (tl : String) (ns ne : Option ℤ),
      (send_pushover_notification env tl ns ne = .send ↔
        envTruthy env.github_actions = true ∧
        envTruthy env.pushover_token = true ∧
        envTruthy env.pushover_user = true ∧
        (∀ s ∈ ns, s ≤ env.now) ∧ (∀ e ∈ ne, env.now ≤ e) ∧
        (tl = "yellow" ∨ tl = "red")) ∧
      (send_pushover_notification env tl ns ne = .skipNotGitHubActions ↔
        envTruthy env.github_actions = false) ∧
      (send_pushover_notification env tl ns ne = .skipNoCredentials ↔
        envTruthy env.github_actions = true ∧
        (envTruthy env.pushover_token = false ∨
          envTruthy env.pushover_user = false)) ∧
      (send_pushover_notification env tl ns ne = .skipBeforeWindow ↔
        envTruthy env.github_actions = true ∧
        envTruthy env.pushover_token = true ∧
        envTruthy env.pushover_user = true ∧ ∃ s ∈ ns, env.now < s) ∧
      (send_pushover_notification env tl ns ne = .skipAfterWindow ↔
        envTruthy env.github_actions = true ∧
        envTruthy env.pushover_token = true ∧
        envTruthy env.pushover_user = true ∧
        (∀ s ∈ ns, s ≤ env.now) ∧ ∃ e ∈ ne, e < env.now) ∧
      (send_pushover_notification env tl ns ne = .skipBelowYellow ↔
        envTruthy env.github_actions = true ∧
        envTruthy env.pushover_token = true ∧
        envTruthy env.pushover_user = true ∧
        (∀ s ∈ ns, s ≤ env.now) ∧ (∀ e ∈ ne, env.now ≤ e) ∧
        ¬(tl = "yellow" ∨ tl = "red")) ∧
      send_pushover_notification env "green" ns ne ≠ .send := by
  intro env tl ns ne
  unfold send_pushover_notification
  cases hg : envTruthy env.github_actions with
  | false => simp [hg]
  | true =>
  cases ht : envTruthy env.pushover_token with
  | false => simp [hg, ht]
  | true =>
  cases hu : envTruthy env.pushover_user with
  | false => simp [hg, ht, hu]
  | true =>
  rcases ns with _ | s
  · rcases ne with _ | e
    · by_cases hy : tl = "yellow"
      · subst hy; simp [hg, ht, hu, beforeWindow, afterWindow]
      · by_cases hr : tl = "red"
        · subst hr; simp [hg, ht, hu, beforeWindow, afterWindow]
        · simp [hg, ht, hu, beforeWindow, afterWindow, hy, hr]
    · by_cases he : e < env.now
      · simp [hg, ht, hu, beforeWindow, afterWindow, he,
          (show ¬ env.now ≤ e by omega)]
      · have he2 : env.now ≤ e := by omega
        by_cases hy : tl = "yellow"
        · subst hy; simp [hg, ht, hu, beforeWindow, afterWindow, he, he2]
        · by_cases hr : tl = "red"
          · subst hr; simp [hg, ht, hu, beforeWindow, afterWindow, he, he2]
          · simp [hg, ht, hu, beforeWindow, afterWindow, he, he2, hy, hr]
  · by_cases hs : env.now < s
    · simp [hg, ht, hu, beforeWindow, afterWindow, hs,
        (show ¬ s ≤ env.now by omega)]
    · have hs2 : s ≤ env.now := by omega
      rcases ne with _ | e
      · by_cases hy : tl = "yellow"
        · subst hy; simp [hg, ht, hu, beforeWindow, afterWindow, hs, hs2]
        · by_cases hr : tl = "red"
          · subst hr; simp [hg, ht, hu, beforeWindow, afterWindow, hs, hs2]
          · simp [hg, ht, hu, beforeWindow, afterWindow, hs, hs2, hy, hr]
      · by_cases he : e < env.now
        · simp [hg, ht, hu, beforeWindow, afterWindow, hs, hs2, he,
            (show ¬ env.now ≤ e by omega)]
        · have he2 : env.now ≤ e := by omega
          by_cases hy : tl = "yellow"
          · subst hy
            simp [hg, ht, hu, beforeWindow, afterWindow, hs, hs2, he, he2]
          · by_cases hr : tl = "red"
            · subst hr
              simp [hg, ht, hu, beforeWindow, afterWindow, hs, hs2, he, he2]
            · simp [hg, ht, hu, beforeWindow, afterWindow, hs, hs2, he, he2,
                hy, hr]

/-- Witness for C4: with the flag set, both credentials present, no window and
traffic light "red", the gate decides to send. -/
theorem send_pushover_notification_gate_witness :
    send_pushover_notification
      ⟨some "true", some "token", some "user", 0⟩ "red" none none =
      NotifyDecision.send :=
  ((send_pushover_notification_gate
      ⟨some "true", some "token", some "user", 0⟩ "red" none none).1).mpr
    ⟨by decide, by decide, by decide, by simp, by simp, Or.inr rfl⟩

lemma send_only_yellow_red {env : NotifyEnv} {tl : String} {ns ne : Option ℤ}
    (h : send_pushover_notification env tl ns ne = NotifyDecision.send) :
    tl = "yellow" ∨ tl = "red" := by
  unfold send_pushover_notification at h
  split_ifs at h with h1 h2 h3 h4 h5
  all_goals first
    | exact NotifyDecision.noConfusion h
    | simpa using h5

lemma traffic_light_of_absent_probability (c : Option ℚ) :
    calculate_traffic_light (calculate_aurora_indicator none c) = "black" := by
  show calculate_traffic_light 0 = "black"
  unfold calculate_traffic_light
  rw [if_neg (by norm_num), if_neg (by norm_num), if_neg (by norm_num)]

/-- C9: at the call site of main, a send decision implies the point
probability was present — an absent probability forces the indicator to 0.0,
hence the traffic light to "black", which the gate's class guard rejects, so
the "N/A" fallback of the probability line is unreachable when a notification
is actually sent. -/
theorem send_implies_probability_present :
    (∀ c : Option ℚ,
      calculate_traffic_light (calculate_aurora_indicator none c) = "black") ∧
    (∀ (env : NotifyEnv) (ns ne : Option ℤ) (c : Option ℚ),
      send_pushover_notification env
        (calculate_traffic_light (calculate_aurora_indicator none c)) ns ne ≠
        NotifyDecision.send) ∧
    (∀ (env : NotifyEnv) (ns ne : Option ℤ) (p c : Option ℚ),
      send_pushover_notification env
        (calculate_traffic_light (calculate_aurora_indicator p c)) ns ne =
        NotifyDecision.send → p ≠ none) := by
  refine ⟨traffic_light_of_absent_probability, fun env ns ne c h => ?_,
    fun env ns ne p c h hp => ?_⟩
  · rcases send_only_yellow_red h with hco | hco <;>
      rw [traffic_light_of_absent_probability] at hco <;> exact absurd hco (by decide)
  · subst hp
    rcases send_only_yellow_red h with hco | hco <;>
      rw [traffic_light_of_absent_probability] at hco <;> exact absurd hco (by decide)

/-- Witness for C9: a concrete run whose gate decision is a send, whose point
probability is indeed present. -/
theorem send_implies_probability_present_witness :
    send_pushover_notification ⟨some "true", some "token", some "user", 0⟩
      (calculate_traffic_light (calculate_aurora_indicator (some 60) none))
      none none = NotifyDecision.send ∧ (some (60:ℚ)) ≠ none := by
  have hcai : calculate_aurora_indicator (some 60) none = 60 := by
    show round1 (max 0 (min 100 (60 * 1))) = 60
    norm_num [max_def, min_def]
    rw [round1_eq_of_lt 600 _ (by norm_num) (by norm_num)]; norm_num
  have hctl : calculate_traffic_light (60:ℚ) = "red" := by
    unfold calculate_traffic_light
    rw [if_pos (by norm_num)]
  have hsend : send_pushover_notification
      ⟨some "true", some "token", some "user", 0⟩ "red" none none =
      NotifyDecision.send := by decide
  refine ⟨by rw [hcai, hctl]; exact hsend, ?_⟩
  exact send_implies_probability_present.2.2
    ⟨some "true", some "token", some "user", 0⟩ none none (some 60) none
    (by rw [hcai, hctl]; exact hsend)

/-- One cell of a NOAA products table row: its raw text and the result of
Python `float()` on it (`none` when `float()` would raise). -/
structure Cell where
  txt : String
  num : Option ℚ
deriving DecidableEq

/-- The check `len(row) >= 3 and row[2] == "observed"` from the source. -/
def isObservedRow (row : List Cell) : Bool :=
  decide (row.length ≥ 3) &&
    (match row[2]? with
     | some c => c.txt == "observed"
     | none => false)

/-- Index of the last row for which `isObservedRow` holds (the source's scan
`for i, row in enumerate(rows): ... last_observed_idx = i`). -/
def lastObservedIdx : List (List Cell) → Option Nat
  | [] => none
  | row :: rest =>
    match lastObservedIdx rest with
    | some i => some (i + 1)
    | none => if isObservedRow row then some 0 else none

/-- `float(rows[i][1])`: `none` when indexing raises `IndexError` or `float`
raises `ValueError`. -/
def getKpCell (rows : List (List Cell)) (i : Nat) : Option ℚ :=
  (rows[i]?).bind fun row => (row[1]?).bind Cell.num

/-- The guarded forecast extraction `if idx + k < len(rows): kp = float(...)`:
`some none` when the position does not exist (the variable stays `None`),
`some (some v)` on success, `none` when an exception is raised. -/
def tryKp (rows : List (List Cell)) (i : Nat) : Option (Option ℚ) :=
  if i < rows.length then (getKpCell rows i).map some
  else some none

/-- `fetch_kp_indices` from the source, on the decoded JSON table: skip the
header row, find the last observed row, read its Kp as current and the next
two positions as 3h/6h; any raised exception collapses all three to `None`. -/
def fetch_kp_indices (data : List (List Cell)) :
    Option ℚ × Option ℚ × Option ℚ :=
  match lastObservedIdx (data.drop 1) with
  | none => (none, none, none)
  | some idx =>
    match getKpCell (data.drop 1) idx, tryKp (data.drop 1) (idx + 1),
        tryKp (data.drop 1) (idx + 2) with
    | some cur, some k3, some k6 => (some cur, k3, k6)
    | _, _, _ => (none, none, none)

/-- A well-formed data row of the K-index table: time tag, Kp value, tag. -/
structure KpEntry where
  time : String
  kp : ℚ
  tag : String

/-- The table row `[time_tag, Kp, observed, noaa_scale]` for an entry. -/
def mkRow (e : KpEntry) : List Cell :=
  [⟨e.time, none⟩, ⟨"", some e.kp⟩, ⟨e.tag, none⟩, ⟨"", none⟩]

/-- The header row `["time_tag", "Kp", "observed", "noaa_scale"]`. -/
def kpHeader : List Cell :=
  [⟨"time_tag", none⟩, ⟨"Kp", none⟩, ⟨"observed", none⟩, ⟨"noaa_scale", none⟩]

/-- A full K-index table: header followed by well-formed data rows. -/
def kpTable (l : List KpEntry) : List (List Cell) := kpHeader :: l.map mkRow

lemma isObservedRow_mkRow (e : KpEntry) :
    isObservedRow (mkRow e) = (e.tag == "observed") := by
  simp [isObservedRow, mkRow]

lemma lastObservedIdx_no_observed {l : List KpEntry}
    (h : ∀ e ∈ l, e.tag ≠ "observed") :
    lastObservedIdx (l.map mkRow) = none := by
  induction l with
  | nil => rfl
  | cons e rest ih =>
    simp only [List.map_cons, lastObservedIdx]
    rw [ih (fun x hx => h x (List.mem_cons_of_mem _ hx)), isObservedRow_mkRow]
    simp [h e (List.mem_cons_self _ _)]

lemma lastObservedIdx_append (l1 : List KpEntry) (x : KpEntry)
    (l2 : List KpEntry) (hx : x.tag = "observed")
    (h2 : ∀ e ∈ l2, e.tag ≠ "observed") :
    lastObservedIdx ((l1 ++ x :: l2).map mkRow) = some l1.length := by
  induction l1 with
  | nil =>
    simp only [List.nil_append, List.map_cons, lastObservedIdx]
    rw [lastObservedIdx_no_observed h2, isObservedRow_mkRow]
    simp [hx]
  | cons e rest ih =>
    simp only [List.cons_append, List.map_cons, lastObservedIdx,
      List.append_eq]
    rw [ih]
    simp

lemma kp_rows_getElem (l1 : List KpEntry) (x : KpEntry) (l2 : List KpEntry)
    (k : Nat) :
    ((l1 ++ x :: l2).map mkRow)[l1.length + k]? =
      ((x :: l2)[k]?).map mkRow := by
  rw [List.map_append, List.getElem?_append_right (by simp),
    List.getElem?_map]
  congr 1
  simp

lemma getKpCell_at_x (l1 : List KpEntry) (x : KpEntry) (l2 : List KpEntry) :
    getKpCell ((l1 ++ x :: l2).map mkRow) l1.length = some x.kp := by
  unfold getKpCell
  have h := kp_rows_getElem l1 x l2 0
  rw [Nat.add_zero] at h
  rw [h, List.getElem?_cons_zero]
  rfl

lemma tryKp_at (l1 : List KpEntry) (x : KpEntry) (l2 : List KpEntry) (k : Nat) :
    tryKp ((l1 ++ x :: l2).map mkRow) (l1.length + (k + 1)) =
      some ((l2[k]?).map KpEntry.kp) := by
  unfold tryKp
  by_cases hk : k < l2.length
  · rw [if_pos (by simp; omega)]
    unfold getKpCell
    rw [kp_rows_getElem l1 x l2 (k + 1), List.getElem?_cons_succ,
      List.getElem?_eq_getElem hk]
    rfl
  · rw [if_neg (by simp; omega), List.getElem?_eq_none (by omega)]
    rfl

/-- C3: `fetch_kp_indices` skips the header row, returns as current the Kp of
the last row tagged "observed", as 3h/6h the Kp of the next one and next two
rows regardless of their tags (absence when missing), all-absence when no row
is tagged "observed"; on the spec's example table the result is (4, 5, 6). -/
theorem fetch_kp_indices_spec :
    (∀ (l1 l2 : List KpEntry) (x : KpEntry),
      x.tag = "observed" → (∀ e ∈ l2, e.tag ≠ "observed") →
      fetch_kp_indices (kpTable (l1 ++ x :: l2)) =
        (some x.kp, (l2[0]?).map KpEntry.kp, (l2[1]?).map KpEntry.kp)) ∧
    (∀ l : List KpEntry, (∀ e ∈ l, e.tag ≠ "observed") →
      fetch_kp_indices (kpTable l) = (none, none, none)) ∧
    fetch_kp_indices (kpTable
      [⟨"t0", 3, "observed"⟩, ⟨"t1", 4, "observed"⟩,
       ⟨"t2", 5, "forecast"⟩, ⟨"t3", 6, "forecast"⟩]) =
      (some 4, some 5, some 6) := by
  refine ⟨fun l1 l2 x hx h2 => ?_, fun l h => ?_, ?_⟩
  · unfold fetch_kp_indices
    simp only [show (kpTable (l1 ++ x :: l2)).drop 1 =
        (l1 ++ x :: l2).map mkRow from rfl,
      lastObservedIdx_append l1 x l2 hx h2]
    rw [getKpCell_at_x l1 x l2,
      show l1.length + 1 = l1.length + (0 + 1) from rfl, tryKp_at l1 x l2 0,
      show l1.length + 2 = l1.length + (1 + 1) from rfl, tryKp_at l1 x l2 1]
  · unfold fetch_kp_indices
    rw [show (kpTable l).drop 1 = l.map mkRow from rfl,
      lastObservedIdx_no_observed h]
  · rfl

/-- Witness for C3 at the spec's example table. -/
theorem fetch_kp_indices_spec_witness :
    (⟨"t1", 4, "observed"⟩ : KpEntry).tag = "observed" ∧
    (∀ e ∈ [(⟨"t2", 5, "forecast"⟩ : KpEntry), ⟨"t3", 6, "forecast"⟩],
      e.tag ≠ "observed") ∧
    fetch_kp_indices (kpTable
      ([⟨"t0", 3, "observed"⟩] ++ (⟨"t1", 4, "observed"⟩ : KpEntry) ::
        [⟨"t2", 5, "forecast"⟩, ⟨"t3", 6, "forecast"⟩])) =
      (some 4, some 5, some 6) :=
  ⟨rfl, by decide,
    fetch_kp_indices_spec.1 [⟨"t0", 3, "observed"⟩]
      [⟨"t2", 5, "forecast"⟩, ⟨"t3", 6, "forecast"⟩]
      ⟨"t1", 4, "observed"⟩ rfl (by decide)⟩

/-- C10: if the row one or two positions after the last observed row exists
but its Kp cell is missing or unparseable, the raised exception is caught by
the surrounding handler and `fetch_kp_indices` returns absence for all three
outputs, including the already-found current value. -/
theorem fetch_kp_indices_parse_failure_discards_all :
    ∀ (data : List (List Cell)) (i : Nat),
      lastObservedIdx (data.drop 1) = some i →
      ((∃ r, (data.drop 1)[i + 1]? = some r ∧ (r[1]?).bind Cell.num = none) ∨
        (∃ r, (data.drop 1)[i + 2]? = some r ∧ (r[1]?).bind Cell.num = none)) →
      fetch_kp_indices data = (none, none, none) := by
  intro data i hlast hbad
  unfold fetch_kp_indices
  simp only [hlast]
  rcases hbad with ⟨r, hr, hn⟩ | ⟨r, hr, hn⟩
  · have h3 : tryKp (data.drop 1) (i + 1) = none := by
      have hlt : i + 1 < (data.drop 1).length := by
        by_contra hge
        rw [List.getElem?_eq_none (by omega)] at hr
        exact Option.noConfusion hr
      unfold tryKp
      rw [if_pos hlt]
      unfold getKpCell
      rw [hr]
      simp [hn]
    rw [h3]
    cases h1 : getKpCell (data.drop 1) i <;>
      cases h2 : tryKp (data.drop 1) (i + 2) <;> rfl
  · have h6 : tryKp (data.drop 1) (i + 2) = none := by
      have hlt : i + 2 < (data.drop 1).length := by
        by_contra hge
        rw [List.getElem?_eq_none (by omega)] at hr
        exact Option.noConfusion hr
      unfold tryKp
      rw [if_pos hlt]
      unfold getKpCell
      rw [hr]
      simp [hn]
    rw [h6]
    cases h1 : getKpCell (data.drop 1) i <;>
      cases h2 : tryKp (data.drop 1) (i + 1) <;> rfl

/-- Witness for C10: a table whose last observed row is valid (Kp 3) but whose
following row has an unparseable Kp cell; everything is discarded. -/
theorem fetch_kp_indices_parse_failure_witness :
    lastObservedIdx (([kpHeader,
        [⟨"t0", none⟩, ⟨"", some 3⟩, ⟨"observed", none⟩],
        [⟨"t1", none⟩, ⟨"N/A", none⟩, ⟨"forecast", none⟩]] :
      List (List Cell)).drop 1) = some 0 ∧
    fetch_kp_indices [kpHeader,
        [⟨"t0", none⟩, ⟨"", some 3⟩, ⟨"observed", none⟩],
        [⟨"t1", none⟩, ⟨"N/A", none⟩, ⟨"forecast", none⟩]] =
      (none, none, none) :=
  ⟨rfl,
    fetch_kp_indices_parse_failure_discards_all
      [kpHeader,
        [⟨"t0", none⟩, ⟨"", some 3⟩, ⟨"observed", none⟩],
        [⟨"t1", none⟩, ⟨"N/A", none⟩, ⟨"forecast", none⟩]] 0 rfl
      (Or.inl ⟨[⟨"t1", none⟩, ⟨"N/A", none⟩, ⟨"forecast", none⟩], rfl, rfl⟩)⟩

/-- Exact-cell test `coord_lat == target_lat and coord_lon == target_lon`
from the source; a grid triple is `(lon, lat, value)`. -/
def isExactB (tlat tlon : ℚ) (c : ℚ × ℚ × ℚ) : Bool :=
  decide (c.2.1 = tlat) && decide (c.1 = tlon)

/-- Region test: both coordinates within ±1 degree (inclusive) of the
rounded target, as in the source. -/
def inRegionB (tlat tlon : ℚ) (c : ℚ × ℚ × ℚ) : Bool :=
  decide (tlon - 1 ≤ c.1) && decide (c.1 ≤ tlon + 1) &&
    decide (tlat - 1 ≤ c.2.1) && decide (c.2.1 ≤ tlat + 1)

/-- The `for coord in coordinates:` loop of `fetch_ovation_data`: threading
the point match (last assignment wins) and the list of regional values. -/
def ovationLoop (tlat tlon : ℚ) (coordinates : List (ℚ × ℚ × ℚ))
    (acc : Option ℚ × List ℚ) : Option ℚ × List ℚ :=
  coordinates.foldl
    (fun a c =>
      (if isExactB tlat tlon c then some c.2.2 else a.1,
       if inRegionB tlat tlon c then a.2 ++ [c.2.2] else a.2)) acc

/-- `fetch_ovation_data` from the source, on the decoded coordinate grid:
round the target to integers, scan for the exact cell and the regional
values, and average the regional values rounded to one decimal. -/
def fetch_ovation_data (coordinates : List (ℚ × ℚ × ℚ)) (lat lon : ℚ) :
    Option ℚ × Option ℚ :=
  let tlat : ℚ := ((roundHalfEven lat : ℤ) : ℚ)
  let tlon : ℚ := ((roundHalfEven lon : ℤ) : ℚ)
  let res := ovationLoop tlat tlon coordinates (none, [])
  (res.1,
    if res.2 = [] then none
    else some (round1 (res.2.sum / (res.2.length : ℚ))))

/-- The point probability as the spec words it: the value of the grid cell
whose longitude and latitude equal the rounded target, absence if no such
cell exists. -/
def ovation_point_spec (coordinates : List (ℚ × ℚ × ℚ)) (tlat tlon : ℚ) :
    Option ℚ :=
  (coordinates.find? (isExactB tlat tlon)).map (fun c => c.2.2)

/-- The regional probability as the spec words it: the arithmetic mean of the
values of all cells within ±1 degree (inclusive) of the rounded target,
rounded to one decimal place, absence when no cell is in the window. -/
def ovation_region_spec (coordinates : List (ℚ × ℚ × ℚ)) (tlat tlon : ℚ) :
    Option ℚ :=
  let vals := (coordinates.filter (inRegionB tlat tlon)).map (fun c => c.2.2)
  if vals = [] then none
  else some (round1 (vals.sum / (vals.length : ℚ)))

lemma ovationLoop_cons (tlat tlon : ℚ) (c : ℚ × ℚ × ℚ)
    (cs : List (ℚ × ℚ × ℚ)) (acc : Option ℚ × List ℚ) :
    ovationLoop tlat tlon (c :: cs) acc =
      ovationLoop tlat tlon cs
        (if isExactB tlat tlon c then some c.2.2 else acc.1,
         if inRegionB tlat tlon c then acc.2 ++ [c.2.2] else acc.2) := rfl

lemma ovationLoop_fst_no_match (tlat tlon : ℚ)
    {coordinates : List (ℚ × ℚ × ℚ)}
    (h : ∀ c ∈ coordinates, isExactB tlat tlon c = false) :
    ∀ acc, (ovationLoop tlat tlon coordinates acc).1 = acc.1 := by
  induction coordinates with
  | nil => intro acc; rfl
  | cons c cs ih =>
    intro acc
    rw [ovationLoop_cons,
      ih (fun d hd => h d (List.mem_cons_of_mem _ hd))]
    simp [h c (List.mem_cons_self _ _)]

lemma ovationLoop_fst_eq_find (tlat tlon : ℚ)
    {coordinates : List (ℚ × ℚ × ℚ)}
    (hp : coordinates.Pairwise (fun a b => ¬(a.1 = b.1 ∧ a.2.1 = b.2.1))) :
    ∀ r : List ℚ, (ovationLoop tlat tlon coordinates (none, r)).1 =
      (coordinates.find? (isExactB tlat tlon)).map (fun c => c.2.2) := by
  induction coordinates with
  | nil => intro r; rfl
  | cons c cs ih =>
    rw [List.pairwise_cons] at hp
    obtain ⟨hc, hcs⟩ := hp
    intro r
    rw [ovationLoop_cons]
    cases hE : isExactB tlat tlon c with
    | true =>
      have hnone : ∀ d ∈ cs, isExactB tlat tlon d = false := by
        intro d hd
        by_contra hdt
        rw [Bool.not_eq_false] at hdt
        have hc1 : c.2.1 = tlat ∧ c.1 = tlon := by simpa [isExactB] using hE
        have hd1 : d.2.1 = tlat ∧ d.1 = tlon := by simpa [isExactB] using hdt
        exact hc d hd ⟨by rw [hc1.2, hd1.2], by rw [hc1.1, hd1.1]⟩
      rw [List.find?_cons_of_pos _ hE,
        ovationLoop_fst_no_match tlat tlon hnone]
      simp
    | false =>
      rw [if_neg Bool.false_ne_true, ih hcs,
        List.find?_cons_of_neg _ (by simp [hE])]

lemma ovationLoop_snd (tlat tlon : ℚ) (coordinates : List (ℚ × ℚ × ℚ)) :
    ∀ (a : Option ℚ) (r : List ℚ),
      (ovationLoop tlat tlon coordinates (a, r)).2 =
        r ++ (coordinates.filter (inRegionB tlat tlon)).map (fun c => c.2.2) := by
  induction coordinates with
  | nil => intro a r; simp [ovationLoop]
  | cons c cs ih =>
    intro a r
    rw [ovationLoop_cons]
    cases hR : inRegionB tlat tlon c with
    | true =>
      rw [ih, List.filter_cons_of_pos hR]
      simp
    | false =>
      rw [ih, if_neg Bool.false_ne_true,
        List.filter_cons_of_neg (by simp [hR])]

/-- C5: on any grid whose cells have pairwise distinct (lon, lat) keys,
`fetch_ovation_data` rounds the target to the nearest integers, returns the
value of the cell matching the rounded target exactly (absence when no cell
matches) and the mean of all cell values within ±1 degree (inclusive) of the
rounded target rounded to one decimal (absence when the window is empty);
the spec's worked example yields exact match 40.0 and regional average 30.0. -/
theorem fetch_ovation_data_spec :
    (∀ (coordinates : List (ℚ × ℚ × ℚ)) (lat lon : ℚ),
      coordinates.Pairwise (fun a b => ¬(a.1 = b.1 ∧ a.2.1 = b.2.1)) →
      fetch_ovation_data coordinates lat lon =
        (ovation_point_spec coordinates ((roundHalfEven lat : ℤ) : ℚ)
            ((roundHalfEven lon : ℤ) : ℚ),
          ovation_region_spec coordinates ((roundHalfEven lat : ℤ) : ℚ)
            ((roundHalfEven lon : ℤ) : ℚ))) ∧
    fetch_ovation_data [(25, 65, 40), (24, 65, 30), (26, 64, 20)]
      65.01 25.47 = (some 40, some 30) := by
  constructor
  · intro coords lat lon hp
    simp only [fetch_ovation_data, ovation_point_spec, ovation_region_spec]
    rw [ovationLoop_fst_eq_find _ _ hp, ovationLoop_snd]
    simp
  · have hlat : roundHalfEven (65.01 : ℚ) = 65 :=
      roundHalfEven_eq_of_lt 65 _ (by norm_num) (by norm_num)
    have hlon : roundHalfEven (25.47 : ℚ) = 25 :=
      roundHalfEven_eq_of_lt 25 _ (by norm_num) (by norm_num)
    simp only [fetch_ovation_data, hlat, hlon]
    norm_num [ovationLoop, List.foldl_cons, List.foldl_nil, isExactB,
      inRegionB]
    rw [round1_eq_of_lt 300 _ (by norm_num) (by norm_num)]
    norm_num
    simp

/-- Witness for C5: the example grid has pairwise distinct keys and the
reader agrees with the spec-side point and regional values on it. -/
theorem fetch_ovation_data_spec_witness :
    ([(25, 65, 40), (24, 65, 30), (26, 64, 20)] :
        List (ℚ × ℚ × ℚ)).Pairwise
      (fun a b => ¬(a.1 = b.1 ∧ a.2.1 = b.2.1)) ∧
    fetch_ovation_data [(25, 65, 40), (24, 65, 30), (26, 64, 20)]
        65.01 25.47 =
      (ovation_point_spec [(25, 65, 40), (24, 65, 30), (26, 64, 20)]
          ((roundHalfEven (65.01 : ℚ) : ℤ) : ℚ)
          ((roundHalfEven (25.47 : ℚ) : ℤ) : ℚ),
        ovation_region_spec [(25, 65, 40), (24, 65, 30), (26, 64, 20)]
          ((roundHalfEven (65.01 : ℚ) : ℤ) : ℚ)
          ((roundHalfEven (25.47 : ℚ) : ℤ) : ℚ)) := by
  have hpw : ([(25, 65, 40), (24, 65, 30), (26, 64, 20)] :
      List (ℚ × ℚ × ℚ)).Pairwise
      (fun a b => ¬(a.1 = b.1 ∧ a.2.1 = b.2.1)) := by
    norm_num [List.pairwise_cons]
  exact ⟨hpw, fetch_ovation_data_spec.1 _ 65.01 25.47 hpw⟩

/-- Outcome of the cloud-coverage fetch: transport failure (`fetch_json`
returned `None`), a malformed payload (any shape making the parse raise, the
`except` returns `None`), or a decoded timeseries whose first entry may lack
the `cloud_area_fraction` field. -/
inductive CloudResp where
  | fail
  | malformed
  | ok (timeseries : List (Option Cell))

/-- `fetch_cloud_coverage` from the source, over the transport abstraction:
pick the first timeseries entry only; absence on any failure. -/
def fetch_cloud_coverage : CloudResp → Option ℚ
  | .fail => none
  | .malformed => none
  | .ok [] => none
  | .ok (none :: _) => none
  | .ok (some c :: _) => c.num

/-- Outcome of the OVATION fetch. -/
inductive OvationResp where
  | fail
  | malformed
  | ok (coordinates : List (ℚ × ℚ × ℚ))

/-- `fetch_ovation_data` over the transport abstraction. -/
def fetch_ovation_resp (r : OvationResp) (lat lon : ℚ) :
    Option ℚ × Option ℚ :=
  match r with
  | .fail => (none, none)
  | .malformed => (none, none)
  | .ok coordinates => fetch_ovation_data coordinates lat lon

/-- Outcome of the K-index fetch. -/
inductive KpResp where
  | fail
  | malformed
  | ok (data : List (List Cell))

/-- `fetch_kp_indices` over the transport abstraction. -/
def fetch_kp_resp : KpResp → Option ℚ × Option ℚ × Option ℚ
  | .fail => (none, none, none)
  | .malformed => (none, none, none)
  | .ok data => fetch_kp_indices data

/-- Outcome of the solar-wind fetch: the `Bz` and `Bt` fields may be missing
(`none`) or unparseable (`some c` with `c.num = none`). -/
inductive SolarWindResp where
  | fail
  | malformed
  | ok (bz bt : Option Cell)

/-- `fetch_solar_wind` from the source: direct field extraction; a raised
`float()` error in either field collapses both to `None`. -/
def fetch_solar_wind : SolarWindResp → Option ℚ × Option ℚ
  | .fail => (none, none)
  | .malformed => (none, none)
  | .ok bz bt =>
    match (match bz with | none => some none | some c => c.num.map some),
        (match bt with | none => some none | some c => c.num.map some) with
    | some vz, some vt => (vz, vt)
    | _, _ => (none, none)

/-- A JSON value as written into the primary output file. -/
inductive JVal where
  | num (q : ℚ)
  | str (s : String)
  | intVal (n : ℤ)
  | null

/-- A possibly-absent number serialized into the snapshot. -/
def optNum : Option ℚ → JVal
  | none => .null
  | some q => .num q

/-- The aggregation and output-building part of `main`: run the four readers
on whatever their fetches produced, derive indicator and traffic light, and
assemble the full snapshot object that is then written unconditionally. -/
def mainOutput (t : ℤ) (cloudResp : CloudResp) (ovationResp : OvationResp)
    (kpResp : KpResp) (swResp : SolarWindResp) (lat lon : ℚ) :
    List (String × JVal) :=
  let clouds := fetch_cloud_coverage cloudResp
  let ov := fetch_ovation_resp ovationResp lat lon
  let kp := fetch_kp_resp kpResp
  let sw := fetch_solar_wind swResp
  let indicator := calculate_aurora_indicator ov.1 clouds
  let traffic_light := calculate_traffic_light indicator
  [("last-update", .intVal t),
    ("cloud-coverage", optNum clouds),
    ("aurora-probability", optNum ov.1),
    ("aurora-probability-region", optNum ov.2),
    ("kp-index", optNum kp.1),
    ("kp-index-3h", optNum kp.2.1),
    ("kp-index-6h", optNum kp.2.2),
    ("bz", optNum sw.1),
    ("bt", optNum sw.2),
    ("aurora-indicator", .num indicator),
    ("aurora-traffic-light", .str traffic_light)]

/-- C6: every reader is a total function that maps transport failure and
malformed payloads to absence, and for every combination of source outcomes
the snapshot object is still assembled with exactly the eleven fixed keys —
no reader failure can prevent or truncate the primary output. -/
theorem main_output_complete :
    (∀ (t : ℤ) (cr : CloudResp) (ovr : OvationResp) (kr : KpResp)
        (sr : SolarWindResp) (lat lon : ℚ),
      (mainOutput t cr ovr kr sr lat lon).map Prod.fst =
        ["last-update", "cloud-coverage", "aurora-probability",
          "aurora-probability-region", "kp-index", "kp-index-3h",
          "kp-index-6h", "bz", "bt", "aurora-indicator",
          "aurora-traffic-light"] ∧
      (mainOutput t cr ovr kr sr lat lon).length = 11) ∧
    fetch_cloud_coverage .fail = none ∧
    fetch_cloud_coverage .malformed = none ∧
    (∀ lat lon : ℚ, fetch_ovation_resp .fail lat lon = (none, none)) ∧
    (∀ lat lon : ℚ, fetch_ovation_resp .malformed lat lon = (none, none)) ∧
    fetch_kp_resp .fail = (none, none, none) ∧
    fetch_kp_resp .malformed = (none, none, none) ∧
    fetch_solar_wind .fail = (none, none) ∧
    fetch_solar_wind .malformed = (none, none) :=
  ⟨fun _ _ _ _ _ _ _ => ⟨rfl, rfl⟩, rfl, rfl, fun _ _ => rfl, fun _ _ => rfl,
    rfl, rfl, rfl, rfl⟩
